import Mathlib

/-!
Verification of the voice-assistant session pipeline
(`backend.py` / `app.py` / `prompts.py`).

The external services (AssemblyAI transcription, the OpenAI chat
completion, ElevenLabs synthesis) are modelled as oracles: each call
outcome is an `Option` value carried by the event, `none` standing for a
raised exception (or, for transcription, a missing text).  Timestamps are
opaque strings produced by the caller.  Audio payloads are byte lists.
-/

namespace VA

/-- Message roles appearing in the conversation history. -/
inductive Role where
  | system
  | user
  | assistant
deriving DecidableEq, Repr

/-- One entry of `conversation_history`.  `tag` embeds the optional
`"type"` key of the Python dict (set to `"welcome"` for the greeting);
`timestamp` is absent exactly on the initial system entry. -/
structure Message where
  role : Role
  content : String
  timestamp : Option String := none
  tag : Option String := none
deriving DecidableEq, Repr

/-- The role/content pair sent to the chat-completion API
(timestamps stripped), from `backend.py` lines 88-92. -/
structure ApiMessage where
  role : Role
  content : String
deriving DecidableEq, Repr

/-- Projection dropping the timestamp and tag, as in the list
comprehension of `backend.py` line 88. -/
def Message.toApi (m : Message) : ApiMessage :=
  { role := m.role, content := m.content }

/-- `prompts.py`: the spoken-and-logged welcome text. -/
def WELCOME_MESSAGE : String :=
  "Hello! I\x27m your AI voice assistant. I\x27m here to help you with any questions or conversations you\x27d like to have. How can I assist you today?"

/-- `prompts.py`: the system prompt installed at session creation. -/
def SYSTEM_PROMPT : String :=
  "You are a helpful, friendly, and conversational AI voice assistant. \n\nKey guidelines:\n- Keep responses concise and natural for voice conversation (2-4 sentences typically)\n- Be warm and personable in your tone\n- Ask clarifying questions when needed\n- Avoid overly technical jargon unless the user is technical\n- If you don\x27t know something, be honest about it\n- For long explanations, break them into digestible chunks\n- Use conversational language, as if speaking to a friend\n\nRemember: Your responses will be spoken aloud, so write in a way that sounds natural when read by text-to-speech."

/-- `prompts.py`: history cap used when preparing the API window. -/
def MAX_CONVERSATION_HISTORY : Nat := 10

/-- The fixed apology returned by `get_llm_response` when the
chat-completion call raises (`backend.py` line 119). -/
def FALLBACK_TEXT : String :=
  "I apologize, but I\x27m having trouble processing that right now. Could you please try again?"

/-- The per-session backend state (`VoiceAssistantBackend`): the session
identifier (a timestamp string in the source) and the conversation
history. -/
structure Backend where
  session_id : String
  conversation_history : List Message
deriving DecidableEq, Repr

/-- The first history entry, appended in `VoiceAssistantBackend.__init__`
(`backend.py` lines 46-49): the system prompt, with no timestamp. -/
def initMsg : Message :=
  { role := Role.system, content := SYSTEM_PROMPT }

/-- `VoiceAssistantBackend.__init__`: fresh state holding only the
system entry. -/
def Backend.init (sid : String) : Backend :=
  { session_id := sid, conversation_history := [initMsg] }

/-- `transcribe_audio` (`backend.py` lines 51-73): the AssemblyAI call
outcome is `some t` when the service returned text `t`; `none` stands for
a raised exception or a missing `transcript.text`, both of which the
method collapses to the empty string. -/
def transcribe_audio (result : Option String) : String :=
  result.getD ""

/-- `synthesize_speech` (`backend.py` lines 121-142): `some bs` is the
concatenation of the returned audio chunks; a raised exception (`none`)
yields empty bytes. -/
def synthesize_speech (result : Option (List Nat)) : List Nat :=
  result.getD []

/-- The membership test of `backend.py` line 91: the role is one of
system / user / assistant (always true for `Role`). -/
def roleOk (m : Message) : Bool :=
  decide (m.role = Role.system) || decide (m.role = Role.user) ||
    decide (m.role = Role.assistant)

/-- The API-window construction of `backend.py` lines 88-96,
parameterised by the history cap: strip timestamps, and when the result
exceeds `cap + 1` entries keep the first entry plus the last `cap`. -/
def bounded_api_messages (cap : Nat) (history : List Message) : List ApiMessage :=
  let api := (history.filter roleOk).map Message.toApi
  if api.length > cap + 1 then
    api.take 1 ++ api.drop (api.length - cap)
  else
    api

/-- The window actually used by `get_llm_response`, with the configured
cap `MAX_CONVERSATION_HISTORY`. -/
def build_api_messages (history : List Message) : List ApiMessage :=
  bounded_api_messages MAX_CONVERSATION_HISTORY history

/-- `get_llm_response` (`backend.py` lines 75-119).  The user message is
appended first; the completion oracle is consulted on the bounded
window.  On success the assistant message is appended and returned; on a
raised exception (`none`) the fallback text is returned and nothing
further is appended (the `except` branch returns directly). -/
def get_llm_response (b : Backend) (user_message : String)
    (now_user now_assistant : String)
    (llm : List ApiMessage → Option String) : Backend × String :=
  let history1 := b.conversation_history ++
    [{ role := Role.user, content := user_message, timestamp := some now_user }]
  match llm (build_api_messages history1) with
  | some assistant_message =>
      ({ b with conversation_history := history1 ++
          [{ role := Role.assistant, content := assistant_message,
             timestamp := some now_assistant }] },
        assistant_message)
  | none =>
      ({ b with conversation_history := history1 }, FALLBACK_TEXT)

/-- The per-event outcomes of the three external services, plus the two
timestamps taken during one `user_audio` event. -/
structure Oracles where
  stt : Option String
  llm : List ApiMessage → Option String
  tts : String → Option (List Nat)
  now_user : String
  now_assistant : String

/-- `process_user_audio` (`backend.py` lines 185-204): transcribe, stop
with `("", b"")` on empty text, otherwise generate (with fallback) and
synthesize the reply. -/
def process_user_audio (b : Backend) (o : Oracles) : Backend × String × List Nat :=
  let user_text := transcribe_audio o.stt
  if user_text = "" then
    (b, "", [])
  else
    let r := get_llm_response b user_text o.now_user o.now_assistant o.llm
    (r.1, r.2, synthesize_speech (o.tts r.2))

/-- Outbound events of the WebSocket protocol (`app.py`). -/
inductive Outbound where
  | connected (session_id : String)
  | assistant_response (text : String) (audio : List Nat) (is_welcome : Bool)
  | error (message : String)
  | conversation_saved (filename : String)
deriving DecidableEq, Repr

/-- Whether an outbound event is an `error` event. -/
def isErrorEvent : Outbound → Bool
  | Outbound.error _ => true
  | _ => false

/-- The `user_audio` branch of `websocket_endpoint` (`app.py` lines
276-303): run the pipeline, send `assistant_response` when both text and
audio are non-empty, otherwise send an `error` event. -/
def handle_user_audio (b : Backend) (o : Oracles) : Backend × Outbound :=
  let r := process_user_audio b o
  if r.2.1 ≠ "" ∧ r.2.2 ≠ [] then
    (r.1, Outbound.assistant_response r.2.1 r.2.2 false)
  else
    (r.1, Outbound.error "Failed to process audio")

/-- The persisted record of `save_conversation` (`backend.py` lines
163-172). -/
structure ConversationData where
  session_id : String
  start_time : Option String
  end_time : String
  messages : List Message
deriving DecidableEq, Repr

/-- The record built by `save_conversation`: session id, the timestamp
of history entry 1 when it exists, the current time, and every
non-system entry in order. -/
def conversation_record (b : Backend) (now : String) : ConversationData :=
  { session_id := b.session_id
    start_time :=
      if b.conversation_history.length > 1 then
        (b.conversation_history.get? 1).bind Message.timestamp
      else none
    end_time := now
    messages := b.conversation_history.filter
      (fun m => !decide (m.role = Role.system)) }

/-- `save_conversation` (`backend.py` lines 156-183): the filename is
`conversation_<session_id>.json`; the record is written with overwrite
semantics.  `write_ok = false` models a raised exception during the
file write, caught in the method and turned into an empty filename.
The backend state is returned unchanged: the method never touches
`conversation_history`. -/
def save_conversation (b : Backend) (now : String) (write_ok : Bool) :
    Backend × Option ConversationData × String :=
  if write_ok then
    (b, some (conversation_record b now), "conversation_" ++ b.session_id ++ ".json")
  else
    (b, none, "")

/-- The history entry appended by `get_welcome_audio` (`backend.py`
lines 148-153): the welcome message as an assistant entry tagged
`"welcome"`. -/
def welcomeMsg (now : String) : Message :=
  { role := Role.assistant, content := WELCOME_MESSAGE,
    timestamp := some now, tag := some "welcome" }

/-- `get_welcome_audio` (`backend.py` lines 144-154): append the welcome
message as an assistant entry tagged `"welcome"` and synthesize it. -/
def get_welcome_audio (b : Backend) (now : String)
    (tts : String → Option (List Nat)) : Backend × List Nat :=
  ({ b with conversation_history := b.conversation_history ++ [welcomeMsg now] },
    synthesize_speech (tts WELCOME_MESSAGE))

/-- The connection prologue of `websocket_endpoint` (`app.py` lines
242-266): create a backend, send `connected`, then send the welcome
`assistant_response` whose displayed text is the literal of line 263
while the synthesized and logged text is `WELCOME_MESSAGE`. -/
def on_connect (wsid : Nat) (backend_sid : String) (now : String)
    (tts : String → Option (List Nat)) : Backend × List Outbound :=
  let b := Backend.init backend_sid
  let r := get_welcome_audio b now tts
  (r.1, [Outbound.connected (toString wsid),
         Outbound.assistant_response "Hello! How may I help you today?" r.2 true])

/-- Inbound events of the receive loop, each carrying the oracle
outcomes of the external calls it triggers. -/
inductive Inbound where
  | user_audio (o : Oracles)
  | end_conversation (now : String) (write_ok : Bool)

/-- One iteration of the receive loop of `websocket_endpoint` (`app.py`
lines 271-312): dispatch on the event type; the returned flag tells
whether the loop stops (no branch ever stops it). -/
def handle_event (b : Backend) (e : Inbound) : Backend × List Outbound × Bool :=
  match e with
  | Inbound.user_audio o =>
      let r := handle_user_audio b o
      (r.1, [r.2], false)
  | Inbound.end_conversation now write_ok =>
      let r := save_conversation b now write_ok
      (b, [Outbound.conversation_saved r.2.2], false)

/-- The receive loop itself: events are handled in order for as long as
no iteration stops the loop. -/
def run_session (b : Backend) : List Inbound → Backend × List Outbound
  | [] => (b, [])
  | e :: rest =>
      let r := handle_event b e
      if r.2.2 then
        (r.1, r.2.1)
      else
        let r2 := run_session r.1 rest
        (r2.1, r.2.1 ++ r2.2)

/-- The `WebSocketDisconnect` handler of `app.py` lines 314-319 acting
on the session registry (the `sessions` dict, keyed by the connection
identity): when the key is present, export the conversation and delete
the entry; otherwise do nothing. -/
def on_disconnect (sessions : List (Nat × Backend)) (sid : Nat) (now : String)
    (write_ok : Bool) : List (Nat × Backend) × Option String :=
  match List.lookup sid sessions with
  | some b =>
      (sessions.filter (fun p => p.1 != sid),
        some (save_conversation b now write_ok).2.2)
  | none => (sessions, none)

/-- The operations a session can perform on its backend after creation:
the welcome utterance, a user turn, an export. -/
inductive Op where
  | welcome (now : String) (tts : String → Option (List Nat))
  | user_turn (o : Oracles)
  | save (now : String) (write_ok : Bool)

/-- Apply one operation to the backend state. -/
def apply_op (b : Backend) : Op → Backend
  | Op.welcome now tts => (get_welcome_audio b now tts).1
  | Op.user_turn o => (handle_user_audio b o).1
  | Op.save now write_ok => (save_conversation b now write_ok).1

/-- Run a sequence of operations from a given state. -/
def run_ops (b : Backend) (ops : List Op) : Backend :=
  ops.foldl apply_op b

/-- Concrete oracle outcomes: the transcription yields "hi", the
completion call raises, the synthesis succeeds with one audio byte. -/
def cexOracle : Oracles :=
  { stt := some "hi", llm := fun _ => none, tts := fun _ => some [0],
    now_user := "t1", now_assistant := "t2" }

/-- Concrete oracle outcomes for an empty transcription. -/
def emptyOracle : Oracles :=
  { stt := none, llm := fun _ => some "x", tts := fun _ => some [1],
    now_user := "t1", now_assistant := "t2" }

/-- A concrete non-system history tail with three entries. -/
def wRest : List Message :=
  [ { role := Role.user, content := "a", timestamp := some "u1" },
    { role := Role.assistant, content := "b", timestamp := some "a1" },
    { role := Role.user, content := "c", timestamp := some "u2" } ]

/-! ## Helper lemmas -/

lemma roleOk_eq_true (m : Message) : roleOk m = true := by
  cases h : m.role <;> simp [roleOk, h]

lemma filter_roleOk_eq (l : List Message) : l.filter roleOk = l := by
  induction l with
  | nil => rfl
  | cons a t ih => simp [List.filter_cons, roleOk_eq_true, ih]

lemma handle_user_audio_fst (b : Backend) (o : Oracles) :
    (handle_user_audio b o).1 = (process_user_audio b o).1 := by
  by_cases hc : (process_user_audio b o).2.1 ≠ "" ∧ (process_user_audio b o).2.2 ≠ [] <;>
    simp [handle_user_audio, hc]

lemma get_llm_history (b : Backend) (um t1 t2 : String)
    (llm : List ApiMessage → Option String) :
    (get_llm_response b um t1 t2 llm).1.conversation_history =
      b.conversation_history ++
        ({ role := Role.user, content := um, timestamp := some t1 } ::
          (match llm (build_api_messages (b.conversation_history ++
              [{ role := Role.user, content := um, timestamp := some t1 }])) with
            | some s => [{ role := Role.assistant, content := s, timestamp := some t2 }]
            | none => [])) := by
  cases hl : llm (build_api_messages (b.conversation_history ++
      [{ role := Role.user, content := um, timestamp := some t1 }])) <;>
    simp [get_llm_response, hl]

lemma get_llm_session_id (b : Backend) (um t1 t2 : String)
    (llm : List ApiMessage → Option String) :
    (get_llm_response b um t1 t2 llm).1.session_id = b.session_id := by
  cases hl : llm (build_api_messages (b.conversation_history ++
      [{ role := Role.user, content := um, timestamp := some t1 }])) <;>
    simp [get_llm_response, hl]

lemma process_fst (b : Backend) (o : Oracles) (h : ¬ transcribe_audio o.stt = "") :
    (process_user_audio b o).1 =
      (get_llm_response b (transcribe_audio o.stt) o.now_user o.now_assistant o.llm).1 := by
  simp [process_user_audio, h]

lemma process_history (b : Backend) (o : Oracles) :
    ∃ tail : List Message,
      (process_user_audio b o).1.conversation_history =
        b.conversation_history ++ tail ∧
      ∀ m ∈ tail, m.role ≠ Role.system ∧ m.timestamp ≠ none := by
  by_cases h : transcribe_audio o.stt = ""
  · exact ⟨[], by simp [process_user_audio, h], by simp⟩
  · rw [process_fst b o h]
    rw [get_llm_history]
    refine ⟨_, rfl, ?_⟩
    intro m hm
    rcases List.mem_cons.mp hm with hm | hm
    · subst hm; exact ⟨by simp, by simp⟩
    · cases hl : o.llm (build_api_messages (b.conversation_history ++
          [{ role := Role.user, content := transcribe_audio o.stt,
             timestamp := some o.now_user }])) <;> rw [hl] at hm
      · simp at hm
      · simp at hm; subst hm; exact ⟨by simp, by simp⟩

lemma process_session_id (b : Backend) (o : Oracles) :
    (process_user_audio b o).1.session_id = b.session_id := by
  by_cases h : transcribe_audio o.stt = ""
  · simp [process_user_audio, h]
  · rw [process_fst b o h, get_llm_session_id]

/-- The state invariant maintained by every session: the session id is
the one handed to `Backend.init`, the history starts with the system
entry, and every later entry is non-system and carries a timestamp. -/
def StateInv (sid : String) (b : Backend) : Prop :=
  b.session_id = sid ∧
  ∃ rest, b.conversation_history = initMsg :: rest ∧
    ∀ m ∈ rest, m.role ≠ Role.system ∧ m.timestamp ≠ none

lemma stateInv_init (sid : String) : StateInv sid (Backend.init sid) :=
  ⟨rfl, [], rfl, by simp⟩

lemma stateInv_apply (sid : String) (b : Backend) (op : Op)
    (h : StateInv sid b) : StateInv sid (apply_op b op) := by
  obtain ⟨hsid, rest, hh, hrest⟩ := h
  cases op with
  | welcome now tts =>
      refine ⟨hsid, rest ++ [welcomeMsg now], ?_, ?_⟩
      · simp [apply_op, get_welcome_audio, hh]
      · intro m hm
        rcases List.mem_append.mp hm with hm | hm
        · exact hrest m hm
        · simp at hm; subst hm; exact ⟨by simp [welcomeMsg], by simp [welcomeMsg]⟩
  | user_turn o =>
      obtain ⟨tail, ht, htail⟩ := process_history b o
      refine ⟨?_, rest ++ tail, ?_, ?_⟩
      · show (handle_user_audio b o).1.session_id = sid
        rw [handle_user_audio_fst, process_session_id, hsid]
      · show (handle_user_audio b o).1.conversation_history = _
        rw [handle_user_audio_fst, ht, hh]
        simp
      · intro m hm
        rcases List.mem_append.mp hm with hm | hm
        · exact hrest m hm
        · exact htail m hm
  | save now write_ok =>
      have hsave : apply_op b (Op.save now write_ok) = b := by
        cases write_ok <;> rfl
      rw [hsave]
      exact ⟨hsid, rest, hh, hrest⟩

lemma stateInv_run (sid : String) (ops : List Op) (b : Backend)
    (h : StateInv sid b) : StateInv sid (run_ops b ops) := by
  induction ops generalizing b with
  | nil => exact h
  | cons op ops ih => exact ih _ (stateInv_apply sid b op h)

lemma filter_non_system (rest : List Message)
    (h : ∀ m ∈ rest, m.role ≠ Role.system) :
    rest.filter (fun m => !decide (m.role = Role.system)) = rest := by
  induction rest with
  | nil => rfl
  | cons a t ih =>
      have ha := h a (by simp)
      simp [List.filter_cons, ha, ih (fun m hm => h m (by simp [hm]))]

lemma filter_system_nil (rest : List Message)
    (h : ∀ m ∈ rest, m.role ≠ Role.system) :
    rest.filter (fun m => decide (m.role = Role.system)) = [] := by
  refine List.filter_eq_nil_iff.mpr ?_
  intro a ha
  simp [h a ha]

lemma record_no_system (b : Backend) (now : String) :
    (conversation_record b now).messages.filter
      (fun m => decide (m.role = Role.system)) = [] := by
  simp [conversation_record, List.filter_filter]

lemma lookup_filter_ne (sid : Nat) (l : List (Nat × Backend)) :
    List.lookup sid (l.filter fun p => p.1 != sid) = none := by
  induction l with
  | nil => rfl
  | cons a t ih =>
      obtain ⟨k, v⟩ := a
      by_cases h : k = sid
      · simp [List.filter_cons, h, ih]
      · have hk : (sid == k) = false := by
          simp [Ne.symm h]
        simp [List.filter_cons, h, List.lookup, hk, ih]

/-! ## Claims -/

/-- Claim C3: whenever the response-generator call fails, the pipeline
does not fail at the generation stage: it returns the fixed non-empty
fallback string as the assistant text and still proceeds to the
synthesis stage with that text. -/
theorem claim_C3 (b : Backend) (o : Oracles)
    (h1 : transcribe_audio o.stt ≠ "")
    (h2 : ∀ msgs, o.llm msgs = none) :
    (process_user_audio b o).2.1 = FALLBACK_TEXT ∧
    FALLBACK_TEXT ≠ "" ∧
    (process_user_audio b o).2.2 = synthesize_speech (o.tts FALLBACK_TEXT) := by
  refine ⟨?_, by decide, ?_⟩ <;>
    simp [process_user_audio, h1, get_llm_response, h2]

/-- Witness for C3 at the concrete failing-generator oracle. -/
theorem claim_C3_witness :
    (process_user_audio (Backend.init "w3") cexOracle).2.1 = FALLBACK_TEXT ∧
    FALLBACK_TEXT ≠ "" ∧
    (process_user_audio (Backend.init "w3") cexOracle).2.2 =
      synthesize_speech (cexOracle.tts FALLBACK_TEXT) :=
  claim_C3 (Backend.init "w3") cexOracle (by decide) (fun _ => rfl)

/-- Claim C5: a `user_audio` event whose audio transcribes to the empty
string (or whose transcription call fails, both modelled by
`transcribe_audio` returning `""`) short-circuits the pipeline: the
backend is returned unchanged (zero log entries, no downstream stage
consulted, whatever the generator and synthesizer oracles are), and the
client receives an `error` outbound event while the loop continues. -/
theorem claim_C5 (b : Backend) (o : Oracles)
    (h : transcribe_audio o.stt = "") :
    process_user_audio b o = (b, "", []) ∧
    handle_event b (Inbound.user_audio o) =
      (b, [Outbound.error "Failed to process audio"], false) := by
  have h1 : process_user_audio b o = (b, "", []) := by
    simp [process_user_audio, h]
  refine ⟨h1, ?_⟩
  simp [handle_event, handle_user_audio, h1]

/-- Witness for C5 at the concrete empty-transcription oracle. -/
theorem claim_C5_witness :
    process_user_audio (Backend.init "w5") emptyOracle = (Backend.init "w5", "", []) ∧
    handle_event (Backend.init "w5") (Inbound.user_audio emptyOracle) =
      (Backend.init "w5", [Outbound.error "Failed to process audio"], false) :=
  claim_C5 (Backend.init "w5") emptyOracle rfl

/-- Claim C8: exporting twice is safe — both calls produce the same
deterministic filename derived from the session identity, and neither
call changes the backend state (in particular the conversation log). -/
theorem claim_C8 (b : Backend) (now1 now2 : String) :
    (save_conversation b now1 true).1 = b ∧
    (save_conversation ((save_conversation b now1 true).1) now2 true).1 =
      (save_conversation b now1 true).1 ∧
    (save_conversation b now1 true).2.2 =
      "conversation_" ++ b.session_id ++ ".json" ∧
    (save_conversation ((save_conversation b now1 true).1) now2 true).2.2 =
      (save_conversation b now1 true).2.2 := by
  simp [save_conversation]

/-- Claim C10: the welcome `assistant_response` event displays the fixed
short greeting while the logged and synthesized welcome text is the
longer `WELCOME_MESSAGE`; the two strings are different. -/
theorem claim_C10 (wsid : Nat) (sid now : String)
    (tts : String → Option (List Nat)) :
    (on_connect wsid sid now tts).2 =
      [Outbound.connected (toString wsid),
       Outbound.assistant_response "Hello! How may I help you today?"
         (synthesize_speech (tts WELCOME_MESSAGE)) true] ∧
    (on_connect wsid sid now tts).1.conversation_history =
      [initMsg, welcomeMsg now] ∧
    (welcomeMsg now).content = WELCOME_MESSAGE ∧
    "Hello! How may I help you today?" ≠ WELCOME_MESSAGE := by
  refine ⟨rfl, ?_, rfl, by decide⟩
  simp [on_connect, get_welcome_audio, Backend.init]

/-- Claim C1 (counterexample): with a non-empty transcription ("hi") and
a failing generator, the pipeline appends exactly ONE entry (the user
message) — not two — even though the fallback text is used as the
assistant reply.  The `except` branch of `get_llm_response` returns the
fallback without logging it. -/
theorem claim_C1_counterexample :
    transcribe_audio cexOracle.stt = "hi" ∧
    (process_user_audio (Backend.init "s0") cexOracle).2.1 = FALLBACK_TEXT ∧
    (process_user_audio (Backend.init "s0") cexOracle).1.conversation_history =
      (Backend.init "s0").conversation_history ++
        [{ role := Role.user, content := "hi", timestamp := some "t1" }] ∧
    ¬ ((process_user_audio (Backend.init "s0") cexOracle).1.conversation_history.length =
        (Backend.init "s0").conversation_history.length + 2) :=
  ⟨rfl, rfl, rfl, by decide⟩

/-- Claim C1 (amended): a `user_audio` event with non-empty
transcription appends exactly two entries — the user message followed by
the assistant reply — when the generator call succeeds; when the
generator call fails, exactly one entry (the user message) is appended
and the fallback text is returned as the assistant reply without being
logged. -/
theorem claim_C1_amended (b : Backend) (o : Oracles)
    (h : transcribe_audio o.stt ≠ "") :
    (process_user_audio b o).1.conversation_history =
      b.conversation_history ++
        ({ role := Role.user, content := transcribe_audio o.stt,
           timestamp := some o.now_user } ::
          (match o.llm (build_api_messages (b.conversation_history ++
              [{ role := Role.user, content := transcribe_audio o.stt,
                 timestamp := some o.now_user }])) with
            | some s =>
                [{ role := Role.assistant, content := s,
                   timestamp := some o.now_assistant }]
            | none => [])) ∧
    (o.llm (build_api_messages (b.conversation_history ++
        [{ role := Role.user, content := transcribe_audio o.stt,
           timestamp := some o.now_user }])) = none →
      (process_user_audio b o).2.1 = FALLBACK_TEXT) := by
  constructor
  · rw [process_fst b o h, get_llm_history]
  · intro hl
    simp [process_user_audio, h, get_llm_response, hl]

/-- Witness for the amended C1 at the concrete failing-generator
oracle: exactly the user entry is appended and the reply is the
fallback text. -/
theorem claim_C1_witness :
    (process_user_audio (Backend.init "w1") cexOracle).1.conversation_history =
      (Backend.init "w1").conversation_history ++
        [{ role := Role.user, content := transcribe_audio cexOracle.stt,
           timestamp := some cexOracle.now_user }] ∧
    (process_user_audio (Backend.init "w1") cexOracle).2.1 = FALLBACK_TEXT := by
  have h := claim_C1_amended (Backend.init "w1") cexOracle (by decide)
  exact ⟨h.1, h.2 rfl⟩

/-- Claim C2 (counterexample): a `user_audio` event whose generator call
fails but whose synthesis succeeds does NOT produce an `error` event:
the loop iteration emits a normal `assistant_response` carrying the
fallback text, and no `error` event is among the outbound events. -/
theorem claim_C2_counterexample :
    (∀ msgs, cexOracle.llm msgs = none) ∧
    (handle_event (Backend.init "s2") (Inbound.user_audio cexOracle)).2.1 =
      [Outbound.assistant_response FALLBACK_TEXT [0] false] ∧
    (handle_event (Backend.init "s2") (Inbound.user_audio cexOracle)).2.1.filter
      isErrorEvent = [] :=
  ⟨fun _ => rfl, by decide, by decide⟩

/-- Claim C2 (amended): the `user_audio` branch emits the `error` event
(with its fixed human-readable message) exactly when the pipeline
returns an empty reply text (empty transcription or empty generated
text) or empty audio (synthesis failure); a generator failure alone is
masked by the fallback text.  In every case the loop iteration does not
close the session and the remaining events are still processed. -/
theorem claim_C2_amended (b : Backend) (o : Oracles) (rest : List Inbound) :
    ((handle_event b (Inbound.user_audio o)).2.1 =
        [Outbound.error "Failed to process audio"] ↔
      ((process_user_audio b o).2.1 = "" ∨ (process_user_audio b o).2.2 = [])) ∧
    (handle_event b (Inbound.user_audio o)).2.2 = false ∧
    run_session b (Inbound.user_audio o :: rest) =
      ((run_session (handle_event b (Inbound.user_audio o)).1 rest).1,
       (handle_event b (Inbound.user_audio o)).2.1 ++
         (run_session (handle_event b (Inbound.user_audio o)).1 rest).2) := by
  refine ⟨?_, rfl, rfl⟩
  by_cases hc : (process_user_audio b o).2.1 ≠ "" ∧ (process_user_audio b o).2.2 ≠ []
  · simp [handle_event, handle_user_audio, hc, hc.1, hc.2]
  · rcases not_and_or.mp hc with hx | hx <;>
      simp [handle_event, handle_user_audio, hc, not_not.mp hx]

/-- Claim C4: for a log made of one system message followed by `N`
non-system messages, the bounded window handed to the generator holds
exactly `min cap N + 1` messages — the system message first, then the
last `min cap N` non-system messages in original order — and the
surrounding call leaves the log itself untouched except for the
documented user/assistant appends. -/
theorem claim_C4 (cap : Nat) (sys : Message) (rest : List Message)
    (b : Backend) (msg t1 t2 : String) (llm : List ApiMessage → Option String)
    (h1 : sys.role = Role.system)
    (h2 : ∀ m ∈ rest, m.role ≠ Role.system) :
    bounded_api_messages cap (sys :: rest) =
      Message.toApi sys ::
        (rest.map Message.toApi).drop (rest.length - min cap rest.length) ∧
    (bounded_api_messages cap (sys :: rest)).length = min cap rest.length + 1 ∧
    (get_llm_response b msg t1 t2 llm).1.conversation_history =
      b.conversation_history ++
        ({ role := Role.user, content := msg, timestamp := some t1 } ::
          (match llm (build_api_messages (b.conversation_history ++
              [{ role := Role.user, content := msg, timestamp := some t1 }])) with
            | some s =>
                [{ role := Role.assistant, content := s, timestamp := some t2 }]
            | none => [])) := by
  have key : bounded_api_messages cap (sys :: rest) =
      Message.toApi sys ::
        (rest.map Message.toApi).drop (rest.length - min cap rest.length) := by
    simp only [bounded_api_messages, filter_roleOk_eq, List.map_cons,
      List.length_cons, List.length_map]
    by_cases hc : rest.length + 1 > cap + 1
    · rw [if_pos hc]
      have hmin : min cap rest.length = cap := by omega
      have hdrop : rest.length + 1 - cap = (rest.length - cap) + 1 := by omega
      rw [hmin, hdrop]
      simp
    · rw [if_neg hc]
      have hmin : min cap rest.length = rest.length := by omega
      rw [hmin]
      simp
  refine ⟨key, ?_, get_llm_history b msg t1 t2 llm⟩
  rw [key]
  simp only [List.length_cons, List.length_drop, List.length_map]
  omega

/-- Witness for C4 at cap 2 and a three-entry non-system tail. -/
theorem claim_C4_witness :
    bounded_api_messages 2 (initMsg :: wRest) =
      Message.toApi initMsg ::
        (wRest.map Message.toApi).drop (wRest.length - min 2 wRest.length) ∧
    (bounded_api_messages 2 (initMsg :: wRest)).length = min 2 wRest.length + 1 ∧
    (get_llm_response (Backend.init "w4") "q" "ta" "tb"
        (fun _ => none)).1.conversation_history =
      (Backend.init "w4").conversation_history ++
        ({ role := Role.user, content := "q", timestamp := some "ta" } ::
          (match (fun _ => (none : Option String))
              (build_api_messages ((Backend.init "w4").conversation_history ++
                [{ role := Role.user, content := "q", timestamp := some "ta" }])) with
            | some s =>
                [{ role := Role.assistant, content := s, timestamp := some "tb" }]
            | none => [])) :=
  claim_C4 2 initMsg wRest (Backend.init "w4") "q" "ta" "tb"
    (fun _ => none) rfl (by decide)

/-- Claim C6: after any sequence of operations on a fresh session, the
log holds exactly one system-role entry, it is the first entry and is
the one installed at creation, and the persisted record contains no
system-role entry. -/
theorem claim_C6 (sid : String) (ops : List Op) (now : String) :
    (run_ops (Backend.init sid) ops).conversation_history.head? = some initMsg ∧
    (run_ops (Backend.init sid) ops).conversation_history.filter
      (fun m => decide (m.role = Role.system)) = [initMsg] ∧
    (conversation_record (run_ops (Backend.init sid) ops) now).messages.filter
      (fun m => decide (m.role = Role.system)) = [] := by
  obtain ⟨hsid, rest, hh, hrest⟩ := stateInv_run sid ops _ (stateInv_init sid)
  refine ⟨?_, ?_, record_no_system _ _⟩
  · rw [hh]; rfl
  · rw [hh, List.filter_cons]
    have hinit : decide (initMsg.role = Role.system) = true := by decide
    simp [hinit, filter_system_nil rest (fun m hm => (hrest m hm).1)]

/-- Claim C7: the persisted record of a reachable session carries the
session identity, the current time as end time, the first non-system
entry's timestamp as start time, and all non-system entries (everything
after the leading system entry) in original order. -/
theorem claim_C7 (sid : String) (ops : List Op) (now : String) (m : Message)
    (hm : (conversation_record (run_ops (Backend.init sid) ops) now).messages.head? =
      some m) :
    (conversation_record (run_ops (Backend.init sid) ops) now).session_id = sid ∧
    (conversation_record (run_ops (Backend.init sid) ops) now).end_time = now ∧
    (run_ops (Backend.init sid) ops).conversation_history.head? = some initMsg ∧
    (conversation_record (run_ops (Backend.init sid) ops) now).messages =
      (run_ops (Backend.init sid) ops).conversation_history.tail ∧
    (conversation_record (run_ops (Backend.init sid) ops) now).start_time =
      m.timestamp ∧
    m.timestamp ≠ none := by
  obtain ⟨hsid, rest, hh, hrest⟩ := stateInv_run sid ops _ (stateInv_init sid)
  have hinit : decide (initMsg.role = Role.system) = true := by decide
  have hmsgs : (conversation_record (run_ops (Backend.init sid) ops) now).messages =
      rest := by
    simp [conversation_record, hh, List.filter_cons, hinit,
      filter_non_system rest (fun m hm => (hrest m hm).1)]
  rw [hmsgs] at hm
  cases rest with
  | nil => cases hm
  | cons a t =>
      have ham : a = m := by simpa using hm
      subst ham
      refine ⟨by simp [conversation_record, hsid], rfl, by rw [hh]; rfl, ?_, ?_, ?_⟩
      · rw [hmsgs, hh]; rfl
      · simp [conversation_record, hh]
      · exact (hrest a (by simp)).2

/-- Witness for C7: a session that only produced the welcome
utterance. -/
theorem claim_C7_witness :
    (conversation_record (run_ops (Backend.init "w7")
        [Op.welcome "tw" (fun _ => some [1])]) "te").session_id = "w7" ∧
    (conversation_record (run_ops (Backend.init "w7")
        [Op.welcome "tw" (fun _ => some [1])]) "te").end_time = "te" ∧
    (run_ops (Backend.init "w7")
        [Op.welcome "tw" (fun _ => some [1])]).conversation_history.head? =
      some initMsg ∧
    (conversation_record (run_ops (Backend.init "w7")
        [Op.welcome "tw" (fun _ => some [1])]) "te").messages =
      (run_ops (Backend.init "w7")
        [Op.welcome "tw" (fun _ => some [1])]).conversation_history.tail ∧
    (conversation_record (run_ops (Backend.init "w7")
        [Op.welcome "tw" (fun _ => some [1])]) "te").start_time =
      (welcomeMsg "tw").timestamp ∧
    (welcomeMsg "tw").timestamp ≠ none :=
  claim_C7 "w7" [Op.welcome "tw" (fun _ => some [1])] "te" (welcomeMsg "tw") rfl

/-- Claim C9: a disconnect always leaves the session identifier
deregistered (whether or not the best-effort export succeeded, since
export failures are contained inside `save_conversation`), and a second
disconnect for an already-removed identifier is a no-op. -/
theorem claim_C9 (sessions : List (Nat × Backend)) (sid : Nat) (now : String)
    (write_ok : Bool) :
    List.lookup sid (on_disconnect sessions sid now write_ok).1 = none ∧
    (List.lookup sid sessions = none →
      on_disconnect sessions sid now write_ok = (sessions, none)) ∧
    (on_disconnect sessions sid now false).1 =
      (on_disconnect sessions sid now true).1 := by
  refine ⟨?_, ?_, ?_⟩
  · cases h : List.lookup sid sessions with
    | none => simp [on_disconnect, h]
    | some b => simp [on_disconnect, h, lookup_filter_ne]
  · intro h
    simp [on_disconnect, h]
  · cases h : List.lookup sid sessions with
    | none => simp [on_disconnect, h]
    | some b => simp [on_disconnect, h]

/-- Witness for C9: a registry holding one session; disconnecting an
absent identifier is a no-op, disconnecting the present one removes
it. -/
theorem claim_C9_witness :
    List.lookup 2 (on_disconnect [(1, Backend.init "a")] 2 "t" true).1 = none ∧
    on_disconnect [(1, Backend.init "a")] 2 "t" true =
      ([(1, Backend.init "a")], none) ∧
    List.lookup 1 (on_disconnect [(1, Backend.init "a")] 1 "t" true).1 = none :=
  ⟨(claim_C9 [(1, Backend.init "a")] 2 "t" true).1,
   (claim_C9 [(1, Backend.init "a")] 2 "t" true).2.1 (by decide),
   (claim_C9 [(1, Backend.init "a")] 1 "t" true).1⟩

end VA
